import Mathlib

/-
Verification of the binding headers of ryoha000/remoterg:
  src/desktop/services/opus-sys/wrapper.h
  src/desktop/services/encoder/libyuv-sys/wrapper.h

The opus wrapper header defines two static inline fixed-arity adapters that
forward to the variadic control entry point opus_encoder_ctl with a hardcoded
request-code constant taken from opus.h.  The libyuv wrapper header is a pure
declaration surface for two conversion functions whose bodies live in the
external libyuv library.

Modelling choices:
  - C pointers are natural numbers, 0 is the NULL pointer.
  - The external opus library surface (the control entry point restricted to
    the int32 payload shape used by the wrappers, as a state transformer over
    an abstract world type, plus the two request-code constants defined by
    opus.h) is a structure parameter, so every theorem holds for every
    possible behavior and every possible numeric value of the constants.
  - The C declaration surface is embedded as explicit signature data so that
    argument order, widths, signedness and return types can be compared with
    the interface table of the spec.
-/

/-- C pointers are modelled as natural numbers, with 0 denoting NULL. -/
abbrev CPtr := Nat

/-- The C types that occur in the two wrapper headers. -/
inductive CType where
  | int
  | int32
  | uint8Ptr
  | constUint8Ptr
  | opusEncoderPtr
  deriving DecidableEq

/-- A C function declaration: name, parameter list in order (each parameter a
name together with its C type), and return type. -/
structure CFunDecl where
  name : String
  params : List (String × CType)
  ret : CType
  deriving DecidableEq

/-- Declaration of ABGRToI420 transcribed from
src/desktop/services/encoder/libyuv-sys/wrapper.h, lines 6 to 15. -/
def ABGRToI420_decl : CFunDecl :=
  { name := "ABGRToI420"
  , params :=
      [ ("src_abgr", CType.constUint8Ptr)
      , ("src_stride_abgr", CType.int)
      , ("dst_y", CType.uint8Ptr)
      , ("dst_stride_y", CType.int)
      , ("dst_u", CType.uint8Ptr)
      , ("dst_stride_u", CType.int)
      , ("dst_v", CType.uint8Ptr)
      , ("dst_stride_v", CType.int)
      , ("width", CType.int)
      , ("height", CType.int) ]
  , ret := CType.int }

/-- Declaration of ABGRToNV12 transcribed from
src/desktop/services/encoder/libyuv-sys/wrapper.h, lines 18 to 25. -/
def ABGRToNV12_decl : CFunDecl :=
  { name := "ABGRToNV12"
  , params :=
      [ ("src_abgr", CType.constUint8Ptr)
      , ("src_stride_abgr", CType.int)
      , ("dst_y", CType.uint8Ptr)
      , ("dst_stride_y", CType.int)
      , ("dst_uv", CType.uint8Ptr)
      , ("dst_stride_uv", CType.int)
      , ("width", CType.int)
      , ("height", CType.int) ]
  , ret := CType.int }

/-- The ABGR to I420 signature as the spec words it: source buffer and stride,
then the Y, U and V destination planes each with its stride, then width and
height, all strides and dimensions signed ints, returning an int status. -/
def ABGRToI420_specDecl : CFunDecl :=
  { name := "ABGRToI420"
  , params :=
      [ ("src_abgr", CType.constUint8Ptr)
      , ("src_stride_abgr", CType.int)
      , ("dst_y", CType.uint8Ptr)
      , ("dst_stride_y", CType.int)
      , ("dst_u", CType.uint8Ptr)
      , ("dst_stride_u", CType.int)
      , ("dst_v", CType.uint8Ptr)
      , ("dst_stride_v", CType.int)
      , ("width", CType.int)
      , ("height", CType.int) ]
  , ret := CType.int }

/-- The ABGR to NV12 signature as the spec words it: source buffer and stride,
then a Y plane with stride and a single interleaved UV plane with stride, then
width and height, all strides and dimensions signed ints, returning an int
status. -/
def ABGRToNV12_specDecl : CFunDecl :=
  { name := "ABGRToNV12"
  , params :=
      [ ("src_abgr", CType.constUint8Ptr)
      , ("src_stride_abgr", CType.int)
      , ("dst_y", CType.uint8Ptr)
      , ("dst_stride_y", CType.int)
      , ("dst_uv", CType.uint8Ptr)
      , ("dst_stride_uv", CType.int)
      , ("width", CType.int)
      , ("height", CType.int) ]
  , ret := CType.int }

/-- Declaration of opus_encoder_set_bitrate_wrapper transcribed from
src/desktop/services/opus-sys/wrapper.h, line 8. -/
def opus_encoder_set_bitrate_wrapper_decl : CFunDecl :=
  { name := "opus_encoder_set_bitrate_wrapper"
  , params := [ ("st", CType.opusEncoderPtr), ("bitrate", CType.int32) ]
  , ret := CType.int }

/-- Declaration of opus_encoder_set_complexity_wrapper transcribed from
src/desktop/services/opus-sys/wrapper.h, line 12. -/
def opus_encoder_set_complexity_wrapper_decl : CFunDecl :=
  { name := "opus_encoder_set_complexity_wrapper"
  , params := [ ("st", CType.opusEncoderPtr), ("complexity", CType.int32) ]
  , ret := CType.int }

/-- The set-complexity adapter signature as the spec words it: an opaque
encoder handle and a 32-bit signed complexity value, returning an int status
code. -/
def opus_encoder_set_complexity_wrapper_specDecl : CFunDecl :=
  { name := "opus_encoder_set_complexity_wrapper"
  , params := [ ("st", CType.opusEncoderPtr), ("complexity", CType.int32) ]
  , ret := CType.int }

/-- The external opus library surface that wrapper.h compiles against: the
variadic control entry point opus_encoder_ctl, restricted to the shape used by
the two adapters (handle, int request code, int32 payload), modelled as a
state transformer over an abstract world type W so that its side effects are
explicit, together with the two request-code constants that opus.h defines.
All of these live outside the repository, so they are kept fully abstract. -/
structure OpusLib (W : Type) where
  opus_encoder_ctl : CPtr → Int → Int → W → Int × W
  OPUS_SET_BITRATE_REQUEST : Int
  OPUS_SET_COMPLEXITY_REQUEST : Int

/-- Embedding of opus_encoder_set_bitrate_wrapper from
src/desktop/services/opus-sys/wrapper.h, lines 8 to 10: a single forwarded
call to opus_encoder_ctl with the OPUS_SET_BITRATE_REQUEST constant. -/
def opus_encoder_set_bitrate_wrapper {W : Type} (lib : OpusLib W)
    (st : CPtr) (bitrate : Int) (w : W) : Int × W :=
  lib.opus_encoder_ctl st lib.OPUS_SET_BITRATE_REQUEST bitrate w

/-- Embedding of opus_encoder_set_complexity_wrapper from
src/desktop/services/opus-sys/wrapper.h, lines 12 to 14: a single forwarded
call to opus_encoder_ctl with the OPUS_SET_COMPLEXITY_REQUEST constant. -/
def opus_encoder_set_complexity_wrapper {W : Type} (lib : OpusLib W)
    (st : CPtr) (complexity : Int) (w : W) : Int × W :=
  lib.opus_encoder_ctl st lib.OPUS_SET_COMPLEXITY_REQUEST complexity w

/-- Generic forwarding function: forward a request code verbatim to the
variadic control entry point.  Both adapters are instances of it. -/
def opus_ctl_forward {W : Type} (lib : OpusLib W) (req : Int)
    (st : CPtr) (v : Int) (w : W) : Int × W :=
  lib.opus_encoder_ctl st req v w

/-- A probe instantiation of the control entry point that returns the request
code it was handed, used to observe which numeric request code an adapter
passes to the underlying entry point. -/
def opusCtlProbe : CPtr → Int → Int → Unit → Int × Unit :=
  fun _ req _ u => (req, u)

/-- One adapter invocation: which adapter was called, on which handle, with
which argument.  Used to model call histories. -/
inductive AdapterCall where
  | setBitrate (st : CPtr) (v : Int)
  | setComplexity (st : CPtr) (v : Int)

/-- Run a history of adapter calls, threading the world through. -/
def runAdapterCalls {W : Type} (lib : OpusLib W) : List AdapterCall → W → W
  | [], w => w
  | AdapterCall.setBitrate st v :: rest, w =>
      runAdapterCalls lib rest (opus_encoder_set_bitrate_wrapper lib st v w).2
  | AdapterCall.setComplexity st v :: rest, w =>
      runAdapterCalls lib rest (opus_encoder_set_complexity_wrapper lib st v w).2

/-- Modelled from the spec: the body of ABGRToI420 lives in the external
libyuv library and is not in the repository; only its declaration is, in
src/desktop/services/encoder/libyuv-sys/wrapper.h.  Per the spec it returns
the integer status 0 on success and a non-zero failure code for a dimension
or pointer validation failure (a null pointer, or width or height at most 0).
Only the returned status is modelled; buffer contents are outside the claims
over this function. -/
def ABGRToI420 (src_abgr : CPtr) (src_stride_abgr : Int)
    (dst_y : CPtr) (dst_stride_y : Int)
    (dst_u : CPtr) (dst_stride_u : Int)
    (dst_v : CPtr) (dst_stride_v : Int)
    (width height : Int) : Int :=
  if src_abgr = 0 ∨ dst_y = 0 ∨ dst_u = 0 ∨ dst_v = 0 ∨ width ≤ 0 ∨ height ≤ 0
  then -1 else 0

/-- Modelled from the spec: the body of ABGRToNV12 lives in the external
libyuv library and is not in the repository; only its declaration is, in
src/desktop/services/encoder/libyuv-sys/wrapper.h.  Per the spec it returns
the integer status 0 on success and a non-zero failure code for a dimension
or pointer validation failure (a null pointer, or width or height at most 0).
Only the returned status is modelled. -/
def ABGRToNV12 (src_abgr : CPtr) (src_stride_abgr : Int)
    (dst_y : CPtr) (dst_stride_y : Int)
    (dst_uv : CPtr) (dst_stride_uv : Int)
    (width height : Int) : Int :=
  if src_abgr = 0 ∨ dst_y = 0 ∨ dst_uv = 0 ∨ width ≤ 0 ∨ height ≤ 0
  then -1 else 0

/-- A concrete opus library instance over the world Int, used to exercise the
general theorems on concrete inputs: the control call returns the request
code plus the world, and adds the payload to the world. -/
def opusLibEx : OpusLib Int :=
  { opus_encoder_ctl := fun _ req v w => (req + w, w + v)
  , OPUS_SET_BITRATE_REQUEST := 4002
  , OPUS_SET_COMPLEXITY_REQUEST := 4010 }

/-- C1: for every library behavior, every encoder handle st, every bitrate
value b (valid or invalid) and every world w, the set-bitrate adapter returns
exactly the status and the world that the underlying variadic call
opus_encoder_ctl st OPUS_SET_BITRATE_REQUEST b yields; it adds no step beyond
this single forwarded call. -/
theorem C1_bitrate_wrapper_forwards_ctl :
    ∀ (W : Type) (lib : OpusLib W) (st : CPtr) (b : Int) (w : W),
      opus_encoder_set_bitrate_wrapper lib st b w =
        lib.opus_encoder_ctl st lib.OPUS_SET_BITRATE_REQUEST b w :=
  fun _ _ _ _ _ => rfl

/-- C2: the set-complexity adapter takes exactly an opaque encoder handle and
a 32-bit signed integer and returns an int status (its declared signature
matches the spec interface table), and for every library behavior, handle and
complexity value the returned status is exactly the status that
opus_encoder_ctl st OPUS_SET_COMPLEXITY_REQUEST c returns, unmodified. -/
theorem C2_complexity_wrapper_contract :
    opus_encoder_set_complexity_wrapper_decl =
      opus_encoder_set_complexity_wrapper_specDecl ∧
    ∀ (W : Type) (lib : OpusLib W) (st : CPtr) (c : Int) (w : W),
      (opus_encoder_set_complexity_wrapper lib st c w).1 =
        (lib.opus_encoder_ctl st lib.OPUS_SET_COMPLEXITY_REQUEST c w).1 :=
  ⟨rfl, fun _ _ _ _ _ => rfl⟩

/-- C3: the adapters introduce no error conditions of their own and never
translate, swallow or renumber a status code: for every library behavior,
every handle and every argument (including values the native library deems
invalid), the status and world returned by each adapter equal exactly those
produced by the underlying variadic call for that request code and
argument. -/
theorem C3_adapters_pass_status_through :
    ∀ (W : Type) (lib : OpusLib W) (st : CPtr) (v : Int) (w : W),
      opus_encoder_set_bitrate_wrapper lib st v w =
        lib.opus_encoder_ctl st lib.OPUS_SET_BITRATE_REQUEST v w ∧
      opus_encoder_set_complexity_wrapper lib st v w =
        lib.opus_encoder_ctl st lib.OPUS_SET_COMPLEXITY_REQUEST v w :=
  fun _ _ _ _ _ => ⟨rfl, rfl⟩

/-- C4: each conversion function returns the integer status 0 on success, and
returns a non-zero failure code when invoked with a null destination pointer
or with width or height at most 0 (behavior modelled from the spec, since the
bodies live in the external libyuv library). -/
theorem C4_conversion_status_codes :
    (∀ src ss dy dsy du dsu dv dsv w h,
      (dy = 0 ∨ du = 0 ∨ dv = 0 ∨ w ≤ 0 ∨ h ≤ 0) →
      ABGRToI420 src ss dy dsy du dsu dv dsv w h ≠ 0) ∧
    (∀ src ss dy dsy du dsu dv dsv w h,
      src ≠ 0 → dy ≠ 0 → du ≠ 0 → dv ≠ 0 → 0 < w → 0 < h →
      ABGRToI420 src ss dy dsy du dsu dv dsv w h = 0) ∧
    (∀ src ss dy dsy duv dsuv w h,
      (dy = 0 ∨ duv = 0 ∨ w ≤ 0 ∨ h ≤ 0) →
      ABGRToNV12 src ss dy dsy duv dsuv w h ≠ 0) ∧
    (∀ src ss dy dsy duv dsuv w h,
      src ≠ 0 → dy ≠ 0 → duv ≠ 0 → 0 < w → 0 < h →
      ABGRToNV12 src ss dy dsy duv dsuv w h = 0) := by
  refine ⟨?_, ?_, ?_, ?_⟩
  · intro src ss dy dsy du dsu dv dsv w h hbad
    have hc : src = 0 ∨ dy = 0 ∨ du = 0 ∨ dv = 0 ∨ w ≤ 0 ∨ h ≤ 0 := by tauto
    simp only [ABGRToI420, if_pos hc]
    decide
  · intro src ss dy dsy du dsu dv dsv w h h1 h2 h3 h4 h5 h6
    have hc : ¬ (src = 0 ∨ dy = 0 ∨ du = 0 ∨ dv = 0 ∨ w ≤ 0 ∨ h ≤ 0) := by
      push_neg
      exact ⟨h1, h2, h3, h4, by omega, by omega⟩
    simp only [ABGRToI420, if_neg hc]
  · intro src ss dy dsy duv dsuv w h hbad
    have hc : src = 0 ∨ dy = 0 ∨ duv = 0 ∨ w ≤ 0 ∨ h ≤ 0 := by tauto
    simp only [ABGRToNV12, if_pos hc]
    decide
  · intro src ss dy dsy duv dsuv w h h1 h2 h3 h4 h5
    have hc : ¬ (src = 0 ∨ dy = 0 ∨ duv = 0 ∨ w ≤ 0 ∨ h ≤ 0) := by
      push_neg
      exact ⟨h1, h2, h3, by omega, by omega⟩
    simp only [ABGRToNV12, if_neg hc]

/-- Witness for C4: concrete evaluations of the conversion status model, one
for each implication of the theorem. -/
theorem C4_conversion_status_codes_witness :
    ABGRToI420 1 8 0 2 1 1 1 1 2 2 ≠ 0 ∧
    ABGRToI420 1 8 1 2 1 1 1 1 2 2 = 0 ∧
    ABGRToNV12 1 8 0 2 1 2 2 2 ≠ 0 ∧
    ABGRToNV12 1 8 1 2 1 2 2 2 = 0 :=
  ⟨C4_conversion_status_codes.1 1 8 0 2 1 1 1 1 2 2 (by decide),
   C4_conversion_status_codes.2.1 1 8 1 2 1 1 1 1 2 2
     (by decide) (by decide) (by decide) (by decide) (by decide) (by decide),
   C4_conversion_status_codes.2.2.1 1 8 0 2 1 2 2 2 (by decide),
   C4_conversion_status_codes.2.2.2 1 8 1 2 1 2 2 2
     (by decide) (by decide) (by decide) (by decide) (by decide)⟩

/-- C5: the declared conversion signatures match the interface described by
the spec exactly in argument order, widths, signedness and return type, for
both ABGRToI420 and ABGRToNV12. -/
theorem C5_conversion_signatures_match_spec :
    ABGRToI420_decl = ABGRToI420_specDecl ∧
    ABGRToNV12_decl = ABGRToNV12_specDecl :=
  ⟨rfl, rfl⟩

/-- C6: the numeric request code each adapter passes to the variadic entry
point is exactly the value the opus header defines for that constant,
whatever that value is: instantiating the entry point with a probe that
reports the request code it receives, the set-bitrate adapter reports the
OPUS_SET_BITRATE_REQUEST field of the library and the set-complexity adapter
reports the OPUS_SET_COMPLEXITY_REQUEST field, for every possible pair of
header values, so the codes track the header rather than being redefined
independently. -/
theorem C6_request_codes_track_header :
    ∀ (br cx : Int) (st : CPtr) (v : Int),
      (opus_encoder_set_bitrate_wrapper (OpusLib.mk opusCtlProbe br cx) st v ()).1 = br ∧
      (opus_encoder_set_complexity_wrapper (OpusLib.mk opusCtlProbe br cx) st v ()).1 = cx :=
  fun _ _ _ _ => ⟨rfl, rfl⟩

/-- C7: an adapter call has no side effect beyond the single underlying
native call: for every library behavior, handle, argument and world, the
world after the adapter call is exactly the world the underlying
opus_encoder_ctl call produces, for both adapters.  The adapter itself is a
pure function of its inputs, so it allocates nothing, frees nothing and
retains no state of its own. -/
theorem C7_no_effect_beyond_underlying_call :
    ∀ (W : Type) (lib : OpusLib W) (st : CPtr) (v : Int) (w : W),
      (opus_encoder_set_bitrate_wrapper lib st v w).2 =
        (lib.opus_encoder_ctl st lib.OPUS_SET_BITRATE_REQUEST v w).2 ∧
      (opus_encoder_set_complexity_wrapper lib st v w).2 =
        (lib.opus_encoder_ctl st lib.OPUS_SET_COMPLEXITY_REQUEST v w).2 :=
  fun _ _ _ _ _ => ⟨rfl, rfl⟩

/-- C8: the adapters are stateless and deterministic from their own
perspective: whenever two histories of prior adapter calls leave the handle
world in the same state, a further invocation of either adapter with the same
handle and the same argument returns the same status and world, because the
result depends only on the handle, the argument and the fixed request code,
never on the history itself. -/
theorem C8_adapters_stateless_deterministic :
    ∀ (W : Type) (lib : OpusLib W) (h1 h2 : List AdapterCall) (w0 : W)
      (st : CPtr) (v : Int),
      runAdapterCalls lib h1 w0 = runAdapterCalls lib h2 w0 →
      opus_encoder_set_bitrate_wrapper lib st v (runAdapterCalls lib h1 w0) =
        opus_encoder_set_bitrate_wrapper lib st v (runAdapterCalls lib h2 w0) ∧
      opus_encoder_set_complexity_wrapper lib st v (runAdapterCalls lib h1 w0) =
        opus_encoder_set_complexity_wrapper lib st v (runAdapterCalls lib h2 w0) := by
  intro W lib h1 h2 w0 st v hw
  rw [hw]
  exact ⟨rfl, rfl⟩

/-- Witness for C8: two different call histories over the concrete library
instance that leave the world in the same state, after which the adapters
return the same results. -/
theorem C8_adapters_stateless_deterministic_witness :
    opus_encoder_set_bitrate_wrapper opusLibEx 5 7
        (runAdapterCalls opusLibEx [AdapterCall.setBitrate 1 2] 0) =
      opus_encoder_set_bitrate_wrapper opusLibEx 5 7
        (runAdapterCalls opusLibEx [AdapterCall.setComplexity 3 2] 0) ∧
    opus_encoder_set_complexity_wrapper opusLibEx 5 7
        (runAdapterCalls opusLibEx [AdapterCall.setBitrate 1 2] 0) =
      opus_encoder_set_complexity_wrapper opusLibEx 5 7
        (runAdapterCalls opusLibEx [AdapterCall.setComplexity 3 2] 0) :=
  C8_adapters_stateless_deterministic Int opusLibEx
    [AdapterCall.setBitrate 1 2] [AdapterCall.setComplexity 3 2] 0 5 7 (by decide)

/-- C9: the adapters perform no validity check on the handle, in particular
no null check: called on the NULL handle (modelled as pointer 0) each adapter
forwards NULL verbatim to opus_encoder_ctl and returns exactly whatever
status and world the native call yields for the null handle. -/
theorem C9_null_handle_forwarded_verbatim :
    ∀ (W : Type) (lib : OpusLib W) (v : Int) (w : W),
      opus_encoder_set_bitrate_wrapper lib 0 v w =
        lib.opus_encoder_ctl 0 lib.OPUS_SET_BITRATE_REQUEST v w ∧
      opus_encoder_set_complexity_wrapper lib 0 v w =
        lib.opus_encoder_ctl 0 lib.OPUS_SET_COMPLEXITY_REQUEST v w :=
  fun _ _ _ _ => ⟨rfl, rfl⟩

/-- C10: the two adapters are one forwarding function instantiated at
different request codes: with opus_ctl_forward lib req st v w defined as
lib.opus_encoder_ctl st req v w, the set-bitrate adapter equals the forwarder
at OPUS_SET_BITRATE_REQUEST and the set-complexity adapter equals the
forwarder at OPUS_SET_COMPLEXITY_REQUEST, for every handle, argument and
world. -/
theorem C10_adapters_are_forward_instances :
    ∀ (W : Type) (lib : OpusLib W) (st : CPtr) (v : Int) (w : W),
      opus_encoder_set_bitrate_wrapper lib st v w =
        opus_ctl_forward lib lib.OPUS_SET_BITRATE_REQUEST st v w ∧
      opus_encoder_set_complexity_wrapper lib st v w =
        opus_ctl_forward lib lib.OPUS_SET_COMPLEXITY_REQUEST st v w :=
  fun _ _ _ _ _ => ⟨rfl, rfl⟩
